import Mathlib

/-!
Shallow embedding of `src/electron-app/src/components/OtcForm.vue` (the
`OtcForm` Vue component of the rotki electron app) together with the
behaviour of the `moment` date library at the two call sites the component
uses.

Modelling conventions:

* The TypeScript union `'buy' | 'sell'` becomes the inductive `TradeType`.
* The `StoredTrade` shape (imported from `@/model/stored-trade`, whose file
  is not part of the excerpt) is reconstructed from its use in
  `updateFields`: the fields `pair`, `timestamp`, `amount`, `rate`, `fee`,
  `fee_currency`, `link`, `notes`, `trade_type`, `trade_id` are all read
  there, and their types follow from the fields of `OtcForm` they are
  assigned to (`timestamp` is a POSIX-seconds number, the rest strings,
  `trade_type` the two-valued union).
* The `datetime` field holds a string in the fixed format
  `'DD/MM/YYYY HH:mm'` (the constant `OtcForm.format`).  A string in that
  format determines, and is determined by, the local calendar minute it
  names; we therefore represent a well-formed display string by that
  minute, counted from the epoch in local time (`DatetimeStr.valid`), and
  any other string verbatim (`DatetimeStr.malformed`).  The empty string
  the field is initialised with is `DatetimeStr.malformed ""`.
* `moment` interprets display strings in local time.  We model the local
  timezone as a fixed offset `off` in minutes east of UTC (no DST), passed
  explicitly to every function that calls into `moment`.
* `moment(ms).format(OtcForm.format)` truncates the instant to its local
  minute: `momentFormatMs`.  `moment(str, OtcForm.format).unix()` parses the
  string back to POSIX seconds (seconds component 0) and yields `NaN` on a
  string that does not parse; the numeric-or-NaN result is modelled as
  `Option Int` with `none` for `NaN`: `momentParseUnix`.
* `trade_id: this.editMode ? this.id : undefined` produces an absent
  (`undefined`) identifier in create mode; the payload field is modelled as
  `Option String` with `none` for `undefined`.
* Methods that mutate `this` become functions on `OtcFormState`; an event
  emitted via `this.$emit` / `@Emit` becomes an `Event` value returned next
  to the new state.  `resetFields` reads the current clock via `moment()`,
  so it receives the current instant `nowMs` (milliseconds) explicitly.
* The `@Watch('otcTrade')` decorator is declared without the `immediate`
  option, so the handler `onTradeChange` runs only when the prop changes
  after creation; at instantiation the fields carry exactly their class
  initialisers, whatever the props are (`instantiate`).
-/

namespace OtcForm

/-- The TypeScript union type `'buy' | 'sell'` of trade directions. -/
inductive TradeType where
  | buy
  | sell
deriving DecidableEq, Repr

/-- The existing-trade record handed to the component through the `otcTrade`
prop, reconstructed from the reads in `updateFields`. -/
structure StoredTrade where
  trade_id : String
  pair : String
  timestamp : Int
  amount : String
  rate : String
  fee : String
  fee_currency : String
  link : String
  notes : String
  trade_type : TradeType
deriving DecidableEq, Repr

/-- The content of the `datetime` field: a string in the fixed display
format `'DD/MM/YYYY HH:mm'`, represented by the local calendar minute
(minutes since the epoch, local time) that the string names, or any other
string verbatim. -/
inductive DatetimeStr where
  | valid (localMinute : Int)
  | malformed (s : String)
deriving DecidableEq, Repr

/-- The mutable field state of the `OtcForm` component: the ten class
properties `id`, `pair`, `datetime`, `amount`, `rate`, `fee`,
`feeCurrency`, `link`, `notes`, `type`. -/
structure OtcFormState where
  id : String
  pair : String
  datetime : DatetimeStr
  amount : String
  rate : String
  fee : String
  feeCurrency : String
  link : String
  notes : String
  type : TradeType
deriving DecidableEq, Repr

/-- The `TradePayload` object literal built in `addTrade`.  `timestamp` is
`none` when `moment(...).unix()` returned `NaN`; `trade_id` is `none` when
the TypeScript value is `undefined`. -/
structure TradePayload where
  amount : String
  fee : String
  fee_currency : String
  link : String
  notes : String
  pair : String
  rate : String
  location : String
  timestamp : Option Int
  trade_type : TradeType
  trade_id : Option String
deriving DecidableEq, Repr

/-- An event emitted by the component: `this.$emit('save', trade)` in
`addTrade`, or the payload-free `cancel` event produced by the `@Emit()`
decorator on `cancel` (the method returns `undefined`). -/
inductive Event where
  | save (trade : TradePayload)
  | cancel
deriving DecidableEq, Repr

/-- The constant `private static format = 'DD/MM/YYYY HH:mm'`. -/
def format : String := "DD/MM/YYYY HH:mm"

/-- `moment(ms).format(OtcForm.format)`: the display string naming the local
calendar minute of the instant `ms` (milliseconds since the epoch), in the
fixed local offset `off` (minutes east of UTC).  The format has no seconds
component, so the instant is floored to the minute. -/
def momentFormatMs (ms off : Int) : DatetimeStr :=
  .valid ((ms + off * 60000).fdiv 60000)

/-- `moment(str, OtcForm.format).unix()`: parse a display string under the
fixed format and take POSIX seconds.  A well-formed string names a local
minute, whose first second is returned; a malformed string gives an invalid
moment, whose `unix()` is `NaN`, modelled as `none`. -/
def momentParseUnix (d : DatetimeStr) (off : Int) : Option Int :=
  match d with
  | .valid m => some (m * 60 - off * 60)
  | .malformed _ => none

/-- The class-property initialisers of `OtcForm`: every string field is
`''`, `type` is `'buy'`. -/
def initState : OtcFormState :=
  { id := ""
    pair := ""
    datetime := .malformed ""
    amount := ""
    rate := ""
    fee := ""
    feeCurrency := ""
    link := ""
    notes := ""
    type := .buy }

/-- Component instantiation.  The props `editMode` and `otcTrade` are set,
the field initialisers run, and nothing else: `@Watch('otcTrade')` is not
`immediate`, so `onTradeChange` does not run at creation and the initial
field state is `initState` whatever the props hold. -/
def instantiate (_editMode : Bool) (_otcTrade : Option StoredTrade) : OtcFormState :=
  initState

/-- `updateFields(trade)`: assign every one of the ten fields from the
record; `datetime` becomes `moment(trade.timestamp * 1000).format(OtcForm.format)`.
All ten fields are written, so the result does not depend on the prior
state. -/
def updateFields (trade : StoredTrade) (off : Int) : OtcFormState :=
  { pair := trade.pair
    datetime := momentFormatMs (trade.timestamp * 1000) off
    amount := trade.amount
    rate := trade.rate
    fee := trade.fee
    feeCurrency := trade.fee_currency
    link := trade.link
    notes := trade.notes
    type := trade.trade_type
    id := trade.trade_id }

/-- `resetFields()`: every string field becomes `''`, `datetime` becomes
`moment().format(OtcForm.format)` (the current instant `nowMs`, floored to
the local minute), `type` becomes `'buy'`. -/
def resetFields (nowMs off : Int) : OtcFormState :=
  { id := ""
    pair := ""
    datetime := momentFormatMs nowMs off
    amount := ""
    rate := ""
    fee := ""
    feeCurrency := ""
    link := ""
    notes := ""
    type := .buy }

/-- The watcher `onTradeChange()`: on a change of the `otcTrade` prop,
reset the fields when the new value is null, otherwise populate them from
it.  Both branches write all ten fields, so the prior state `_s` is
irrelevant to the result. -/
def onTradeChange (_s : OtcFormState) (otcTrade : Option StoredTrade)
    (nowMs off : Int) : OtcFormState :=
  match otcTrade with
  | none => resetFields nowMs off
  | some trade => updateFields trade off

/-- The `TradePayload` object literal built in `addTrade` from the current
field state: `location` is the constant `'external'`, `timestamp` is
`moment(this.datetime, OtcForm.format).unix()`, and `trade_id` is
`this.editMode ? this.id : undefined`. -/
def tradePayloadOf (s : OtcFormState) (editMode : Bool) (off : Int) : TradePayload :=
  { amount := s.amount
    fee := s.fee
    fee_currency := s.feeCurrency
    link := s.link
    notes := s.notes
    pair := s.pair
    rate := s.rate
    location := "external"
    timestamp := momentParseUnix s.datetime off
    trade_type := s.type
    trade_id := if editMode then some s.id else none }

/-- `addTrade()`: build the payload and `this.$emit('save', trade)`.  No
field of `this` is assigned, so the state component is returned unchanged. -/
def addTrade (s : OtcFormState) (editMode : Bool) (off : Int) :
    OtcFormState × Event :=
  (s, Event.save (tradePayloadOf s editMode off))

/-- `cancel()`: call `resetFields()` and, through the `@Emit()` decorator,
emit the `cancel` event carrying the method's return value, which is
`undefined` — a payload-free event. -/
def cancel (_s : OtcFormState) (nowMs off : Int) : OtcFormState × Event :=
  (resetFields nowMs off, Event.cancel)

/-- The record of the spec's scenario: `{trade_id:"abc", pair:"BTC_EUR",
timestamp:1600000000, amount:"1", rate:"9000", fee:"0", fee_currency:"EUR",
link:"", notes:"", trade_type:"buy"}`. -/
def exampleTrade : StoredTrade :=
  { trade_id := "abc"
    pair := "BTC_EUR"
    timestamp := 1600000000
    amount := "1"
    rate := "9000"
    fee := "0"
    fee_currency := "EUR"
    link := ""
    notes := ""
    trade_type := .buy }

/-! ## Claim theorems -/

/-- Claim C1: for every non-null existing trade record `R` supplied through
the `otcTrade` prop, after the watcher `onTradeChange` processes the change,
every field of the form state (pair, amount, rate, fee, fee currency, link,
notes, direction, identifier) equals the corresponding field of `R`, and the
date/time field equals `R.timestamp` converted to the fixed display format
`'DD/MM/YYYY HH:mm'` (via `moment(R.timestamp * 1000).format`). -/
theorem C1_record_populates_all_fields (s : OtcFormState) (R : StoredTrade)
    (nowMs off : Int) :
    (onTradeChange s (some R) nowMs off).pair = R.pair ∧
    (onTradeChange s (some R) nowMs off).amount = R.amount ∧
    (onTradeChange s (some R) nowMs off).rate = R.rate ∧
    (onTradeChange s (some R) nowMs off).fee = R.fee ∧
    (onTradeChange s (some R) nowMs off).feeCurrency = R.fee_currency ∧
    (onTradeChange s (some R) nowMs off).link = R.link ∧
    (onTradeChange s (some R) nowMs off).notes = R.notes ∧
    (onTradeChange s (some R) nowMs off).type = R.trade_type ∧
    (onTradeChange s (some R) nowMs off).id = R.trade_id ∧
    (onTradeChange s (some R) nowMs off).datetime
      = momentFormatMs (R.timestamp * 1000) off :=
  ⟨rfl, rfl, rfl, rfl, rfl, rfl, rfl, rfl, rfl, rfl⟩

/-- Claim C2: the payload emitted by `addTrade` carries an identifier if and
only if edit mode is active: in create mode the `trade_id` field is absent
(`undefined`, modelled `none`) whatever the prior state, and in edit mode it
is the identifier carried from the most recently applied existing record. -/
theorem C2_identifier_iff_edit_mode (s : OtcFormState) (em : Bool) (off : Int) :
    (addTrade s em off).2 = Event.save (tradePayloadOf s em off) ∧
    ((tradePayloadOf s em off).trade_id = if em then some s.id else none) ∧
    (tradePayloadOf s false off).trade_id = none ∧
    (tradePayloadOf s true off).trade_id = some s.id ∧
    (∀ (R : StoredTrade) (nowMs : Int),
      (tradePayloadOf (onTradeChange s (some R) nowMs off) true off).trade_id
        = some R.trade_id) :=
  ⟨rfl, rfl, rfl, rfl, fun _ _ => rfl⟩

/-- Claim C3, counterexample: injecting the scenario record (timestamp
1600000000, whose seconds component is 40) and submitting without edits does
NOT emit timestamp 1600000000 — the display format has no seconds, so the
round trip yields 1599999960.  Instantiated at local offset 0 and an
arbitrary clock instant 0. -/
theorem C3_counterexample :
    (tradePayloadOf (onTradeChange initState (some exampleTrade) 0 0) true 0).timestamp
        = some 1599999960 ∧
    (tradePayloadOf (onTradeChange initState (some exampleTrade) 0 0) true 0).timestamp
        ≠ some 1600000000 := by
  decide

/-- Claim C3, amended: injecting the scenario record with edit mode on
populates every field from the record, and submitting without further edits
emits a save payload with `trade_id` "abc", timestamp 1599999960 (the
record's timestamp with its seconds component lost to the minute-resolution
display format), and all other fields unchanged from the record. -/
theorem C3_amended_scenario (s : OtcFormState) (nowMs off : Int) :
    (onTradeChange s (some exampleTrade) nowMs off).pair = "BTC_EUR" ∧
    (onTradeChange s (some exampleTrade) nowMs off).amount = "1" ∧
    (onTradeChange s (some exampleTrade) nowMs off).rate = "9000" ∧
    (onTradeChange s (some exampleTrade) nowMs off).fee = "0" ∧
    (onTradeChange s (some exampleTrade) nowMs off).feeCurrency = "EUR" ∧
    (onTradeChange s (some exampleTrade) nowMs off).link = "" ∧
    (onTradeChange s (some exampleTrade) nowMs off).notes = "" ∧
    (onTradeChange s (some exampleTrade) nowMs off).type = TradeType.buy ∧
    (onTradeChange s (some exampleTrade) nowMs off).id = "abc" ∧
    (onTradeChange s (some exampleTrade) nowMs off).datetime
      = momentFormatMs (1600000000 * 1000) off ∧
    (addTrade (onTradeChange s (some exampleTrade) nowMs off) true off).2
      = Event.save (tradePayloadOf (onTradeChange s (some exampleTrade) nowMs off) true off) ∧
    (tradePayloadOf (onTradeChange s (some exampleTrade) nowMs off) true off)
      = { amount := "1", fee := "0", fee_currency := "EUR", link := "",
          notes := "", pair := "BTC_EUR", rate := "9000",
          location := "external", timestamp := some 1599999960,
          trade_type := TradeType.buy, trade_id := some "abc" } := by
  refine ⟨rfl, rfl, rfl, rfl, rfl, rfl, rfl, rfl, rfl, rfl, rfl, ?_⟩
  have hts : momentParseUnix (momentFormatMs (1600000000 * 1000) off) off
      = some 1599999960 := by
    simp only [momentFormatMs, momentParseUnix]
    refine congrArg some ?_
    rw [Int.fdiv_eq_ediv _ (by norm_num : (0:Int) ≤ 60000)]
    omega
  simp only [tradePayloadOf, onTradeChange, updateFields, exampleTrade, hts, if_true]

/-- Claim C4: for every POSIX timestamp `T` in seconds, formatting `T` to
the display format `'DD/MM/YYYY HH:mm'` (via `moment(T * 1000).format`) and
parsing the result back under the same format (via `moment(str, fmt).unix()`)
yields `T` with its seconds component discarded, for every fixed local
offset. -/
theorem C4_roundtrip_to_the_minute (T off : Int) :
    momentParseUnix (momentFormatMs (T * 1000) off) off = some (T - T % 60) := by
  simp only [momentFormatMs, momentParseUnix]
  refine congrArg some ?_
  rw [Int.fdiv_eq_ediv _ (by norm_num : (0:Int) ≤ 60000)]
  omega

/-- Claim C5, counterexample: a record present when the component is created
does NOT populate the fields — `@Watch('otcTrade')` is not `immediate`, so
the initial state carries the class initialisers; with `exampleTrade`
injected at creation the pair field is `""`, not the record's "BTC_EUR". -/
theorem C5_counterexample :
    (instantiate true (some exampleTrade)).pair ≠ exampleTrade.pair := by
  decide

/-- Claim C5, amended: at component instantiation the field state is always
the class initialisers — every string field empty, direction "buy", and the
date/time field the empty string — regardless of whether a record is
injected; population from an injected record happens only when the watcher
observes a change of the record prop after instantiation. -/
theorem C5_amended_instantiation_ignores_record (em : Bool)
    (ot : Option StoredTrade) :
    instantiate em ot = initState ∧
    initState.id = "" ∧ initState.pair = "" ∧ initState.amount = "" ∧
    initState.rate = "" ∧ initState.fee = "" ∧ initState.feeCurrency = "" ∧
    initState.link = "" ∧ initState.notes = "" ∧
    initState.datetime = DatetimeStr.malformed "" ∧
    initState.type = TradeType.buy :=
  ⟨rfl, rfl, rfl, rfl, rfl, rfl, rfl, rfl, rfl, rfl, rfl⟩

/-- Claim C6, counterexample: at instantiation with no record supplied the
date/time field is the empty string, not the current moment in display
format (instantiated at clock instant 0, offset 0): the claim's date/time
conjunct fails in that no-record state. -/
theorem C6_counterexample :
    (instantiate false none).datetime = DatetimeStr.malformed "" ∧
    (instantiate false none).datetime ≠ momentFormatMs 0 0 := by
  decide

/-- Claim C6, amended: after the watcher processes an absent record, every
string field is empty, the direction is "buy", and the date/time field is
the current moment in the display format; at bare instantiation with no
record the string fields are empty and the direction is "buy", but the
date/time field is the empty string rather than the current moment. -/
theorem C6_amended_absent_record_defaults (s : OtcFormState) (nowMs off : Int) :
    (onTradeChange s none nowMs off).id = "" ∧
    (onTradeChange s none nowMs off).pair = "" ∧
    (onTradeChange s none nowMs off).amount = "" ∧
    (onTradeChange s none nowMs off).rate = "" ∧
    (onTradeChange s none nowMs off).fee = "" ∧
    (onTradeChange s none nowMs off).feeCurrency = "" ∧
    (onTradeChange s none nowMs off).link = "" ∧
    (onTradeChange s none nowMs off).notes = "" ∧
    (onTradeChange s none nowMs off).type = TradeType.buy ∧
    (onTradeChange s none nowMs off).datetime = momentFormatMs nowMs off ∧
    (instantiate false none).datetime = DatetimeStr.malformed "" :=
  ⟨rfl, rfl, rfl, rfl, rfl, rfl, rfl, rfl, rfl, rfl, rfl⟩

/-- Claim C7: for every prior form state, including any state reached in
edit mode, `cancel()` resets every field to its create-mode default (empty
strings, direction "buy", date/time the current moment in display format)
and emits a `cancel` event that carries no payload. -/
theorem C7_cancel_resets_and_emits (s : OtcFormState) (nowMs off : Int) :
    (cancel s nowMs off).1.id = "" ∧
    (cancel s nowMs off).1.pair = "" ∧
    (cancel s nowMs off).1.amount = "" ∧
    (cancel s nowMs off).1.rate = "" ∧
    (cancel s nowMs off).1.fee = "" ∧
    (cancel s nowMs off).1.feeCurrency = "" ∧
    (cancel s nowMs off).1.link = "" ∧
    (cancel s nowMs off).1.notes = "" ∧
    (cancel s nowMs off).1.type = TradeType.buy ∧
    (cancel s nowMs off).1.datetime = momentFormatMs nowMs off ∧
    (cancel s nowMs off).2 = Event.cancel :=
  ⟨rfl, rfl, rfl, rfl, rfl, rfl, rfl, rfl, rfl, rfl, rfl⟩

/-- Claim C8: when the date/time field holds a string that does not parse
under the fixed display format, `addTrade` neither raises nor intercepts the
failure: it still emits a save event whose payload carries, as its
timestamp, exactly what the conversion routine returns for malformed input
(`NaN`, modelled `none`). -/
theorem C8_malformed_datetime_still_saves (s : OtcFormState) (em : Bool)
    (off : Int) (str : String) (h : s.datetime = DatetimeStr.malformed str) :
    (addTrade s em off).2 = Event.save (tradePayloadOf s em off) ∧
    (tradePayloadOf s em off).timestamp = momentParseUnix s.datetime off ∧
    (tradePayloadOf s em off).timestamp = none := by
  refine ⟨rfl, rfl, ?_⟩
  simp only [tradePayloadOf, h, momentParseUnix]

/-- Witness for claim C8 at a concrete state whose date/time field holds the
unparsable string "nonsense". -/
theorem C8_witness :
    (addTrade { initState with datetime := DatetimeStr.malformed "nonsense" } false 0).2
        = Event.save (tradePayloadOf { initState with datetime := DatetimeStr.malformed "nonsense" } false 0) ∧
    (tradePayloadOf { initState with datetime := DatetimeStr.malformed "nonsense" } false 0).timestamp = none :=
  ⟨(C8_malformed_datetime_still_saves _ false 0 "nonsense" rfl).1,
   (C8_malformed_datetime_still_saves _ false 0 "nonsense" rfl).2.2⟩

/-- Claim C9: `addTrade` leaves every field of the form state unchanged — it
emits the save event carrying the payload but resets or modifies nothing
itself. -/
theorem C9_submit_preserves_state (s : OtcFormState) (em : Bool) (off : Int) :
    (addTrade s em off).1 = s ∧
    (addTrade s em off).2 = Event.save (tradePayloadOf s em off) :=
  ⟨rfl, rfl⟩

/-- Claim C10: the direction field is always "buy" or "sell": it is
initialised to "buy", `resetFields` (and `cancel`) set it to "buy",
`updateFields` copies the record's two-valued direction, `addTrade` leaves
it unchanged, and every emitted payload's trade direction is "buy" or
"sell". -/
theorem C10_direction_two_valued (s : OtcFormState) (em : Bool)
    (nowMs off : Int) (R : StoredTrade) :
    initState.type = TradeType.buy ∧
    (resetFields nowMs off).type = TradeType.buy ∧
    (updateFields R off).type = R.trade_type ∧
    (addTrade s em off).1.type = s.type ∧
    (cancel s nowMs off).1.type = TradeType.buy ∧
    (tradePayloadOf s em off).trade_type = s.type ∧
    ((tradePayloadOf s em off).trade_type = TradeType.buy ∨
      (tradePayloadOf s em off).trade_type = TradeType.sell) := by
  refine ⟨rfl, rfl, rfl, rfl, rfl, rfl, ?_⟩
  show s.type = TradeType.buy ∨ s.type = TradeType.sell
  cases s.type
  case buy => exact Or.inl rfl
  case sell => exact Or.inr rfl

end OtcForm
